import Mathlib

/-!
Verification model of the Maha Aastha grievance chatbot backend
(`src/fastapp.py`, `src/database.py`).

The Python code recognises intents with `re` patterns over user text.  The
patterns used by the code are fixed and simple (word-boundary delimited
literal tokens, literal prefixes followed by character-class runs), so each
one is embedded here as a direct scanner over `List Char` with the exact
semantics of the corresponding CPython pattern:

* a regex word character (`\w`) is an ASCII alphanumeric, an underscore, or
  a Devanagari letter or digit; Devanagari combining signs (matras, anusvara,
  virama, candra) and punctuation are *not* word characters (CPython `sre`
  classifies `\w` by Unicode alphanumericity; only category L* and N* pass).
  Devanagari is the only non-ASCII script this system handles, so the
  predicate is spelled out for ASCII plus the Devanagari block;
* `\b` holds at a position iff exactly one of the two surrounding characters
  is a word character (ends of the text count as non-word);
* `re.search` returns the leftmost match; the scanners below try every
  start position from the left.

Dates coming from the store are modeled as their already-formatted display
strings (`%d-%b-%Y`); `datetime` formatting itself is outside the logic the
claims are about.  Python `str.strip` / `str.lower` are modeled by
`pyStrip` / `pyLower` below (ASCII whitespace and case; Devanagari has no
case), which agree with Python on every string this system manipulates.
-/

set_option maxRecDepth 8192

/-- Decidable equality for `Except`, used to evaluate the embedded fallible
functions on concrete inputs. -/
instance {ε α : Type} [DecidableEq ε] [DecidableEq α] : DecidableEq (Except ε α) := fun x y =>
  match x, y with
  | Except.error a, Except.error b =>
    if h : a = b then Decidable.isTrue (by rw [h])
    else Decidable.isFalse (fun he => by cases he; exact h rfl)
  | Except.ok a, Except.ok b =>
    if h : a = b then Decidable.isTrue (by rw [h])
    else Decidable.isFalse (fun he => by cases he; exact h rfl)
  | Except.error a, Except.ok b => Decidable.isFalse (fun he => by cases he)
  | Except.ok a, Except.error b => Decidable.isFalse (fun he => by cases he)

/-- CPython `\w` (word character), restricted to the scripts this system
uses: ASCII alphanumerics, underscore, Devanagari letters and digits.
Devanagari combining signs (U+0900–U+0903, U+093A–U+094F except U+093D,
U+0951–U+0957, U+0962–U+0965) are not word characters. -/
def isWordChar (c : Char) : Bool :=
  c.isAlphanum || c == '_' ||
  (0x904 ≤ c.toNat && c.toNat ≤ 0x939) || c.toNat == 0x93D || c.toNat == 0x950 ||
  (0x958 ≤ c.toNat && c.toNat ≤ 0x961) || (0x966 ≤ c.toNat && c.toNat ≤ 0x96F) ||
  (0x971 ≤ c.toNat && c.toNat ≤ 0x97F)

/-- Word-character test on an optional character; absence of a character
(the edge of the text) counts as non-word. -/
def isWordOpt : Option Char → Bool
  | some c => isWordChar c
  | none => false

/-- Python regex `\b`: true between `left` and `right` iff exactly one of
the two sides is a word character. -/
def boundaryAt (left right : Option Char) : Bool :=
  isWordOpt left != isWordOpt right

/-- Python `str.lower` (ASCII case folding; Devanagari is caseless). -/
def pyLower (s : String) : String :=
  String.mk (s.data.map Char.toLower)

/-- Python `str.strip` (remove leading and trailing whitespace). -/
def pyStrip (s : String) : String :=
  String.mk (((s.data.dropWhile Char.isWhitespace).reverse.dropWhile Char.isWhitespace).reverse)

/-- Python `pat in s` (substring containment). -/
def containsSub (s pat : String) : Bool :=
  s.data.tails.any (fun t => pat.data.isPrefixOf t)

/-- Scan a text from the left, testing a position predicate `p` (which sees
the character before the position and the rest of the text) at every start
position; mirrors `re.search` existence for the fixed patterns below. -/
def scanAny (p : Option Char → List Char → Bool) : Option Char → List Char → Bool
  | prev, [] => p prev []
  | prev, c :: cs => p prev (c :: cs) || scanAny p (some c) cs

-- === IdentifierDetector: ticket-ID patterns (fastapp.py detect_ticket_id) ===

/-- Match of `\b(TKT-[a-zA-Z0-9]+)\b` (case-insensitive) starting exactly at
the head of `cs`, `prev` being the character before it.  The alphanumeric
run is maximal: every shorter run is followed by an alphanumeric (a word
character), so backtracking inside the run can never satisfy the trailing
`\b`. -/
def ticket1At (prev : Option Char) (cs : List Char) : Option (List Char) :=
  match cs with
  | a :: b :: c :: d :: rest =>
    if boundaryAt prev (some a) && a.toLower == 't' && b.toLower == 'k' &&
        c.toLower == 't' && d == '-' then
      let run := rest.takeWhile Char.isAlphanum
      let after := rest.dropWhile Char.isAlphanum
      if run.length ≥ 1 && boundaryAt (run.getLast?) after.head? then
        some (a :: b :: c :: d :: run)
      else none
    else none
  | _ => none

/-- Match of `\b(TKT[0-9a-zA-Z]+)\b` (case-insensitive) starting at the head
of `cs`. -/
def ticket2At (prev : Option Char) (cs : List Char) : Option (List Char) :=
  match cs with
  | a :: b :: c :: rest =>
    if boundaryAt prev (some a) && a.toLower == 't' && b.toLower == 'k' &&
        c.toLower == 't' then
      let run := rest.takeWhile Char.isAlphanum
      let after := rest.dropWhile Char.isAlphanum
      if run.length ≥ 1 && boundaryAt (run.getLast?) after.head? then
        some (a :: b :: c :: run)
      else none
    else none
  | _ => none

/-- Match of `\b([0-9]{6,})\b` starting at the head of `cs`: a maximal digit
run of length at least 6 delimited by boundaries (shorter greedy
backtracking positions are followed by a digit, hence can never satisfy the
trailing `\b`). -/
def ticket3At (prev : Option Char) (cs : List Char) : Option (List Char) :=
  let run := cs.takeWhile Char.isDigit
  let after := cs.dropWhile Char.isDigit
  if boundaryAt prev cs.head? && run.length ≥ 6 && boundaryAt (run.getLast?) after.head? then
    some run
  else none

/-- Leftmost match of a positional matcher `m`, as a `String`. -/
def searchLeftmost (m : Option Char → List Char → Option (List Char)) :
    Option Char → List Char → Option String
  | prev, [] =>
    match m prev [] with
    | some r => some (String.mk r)
    | none => none
  | prev, c :: cs =>
    match m prev (c :: cs) with
    | some r => some (String.mk r)
    | none => searchLeftmost m (some c) cs

/-- `detect_ticket_id` (fastapp.py): try the three patterns over the whole
text in order, first `re.search` hit wins. -/
def detect_ticket_id (text : String) : Option String :=
  match searchLeftmost ticket1At none text.data with
  | some t => some t
  | none =>
    match searchLeftmost ticket2At none text.data with
    | some t => some t
    | none => searchLeftmost ticket3At none text.data

/-- `validate_ticket_id_format` (fastapp.py): the stripped candidate must
fully match `^TKT-[a-zA-Z0-9]{6,}$`, `^TKT[0-9a-zA-Z]{6,}$` or `^[0-9]{6,}$`
(case-insensitive). -/
def validate_ticket_id_format (ticket_id : String) : Bool :=
  let s := (pyStrip ticket_id).data
  (match s with
   | a :: b :: c :: d :: rest =>
     a.toLower == 't' && b.toLower == 'k' && c.toLower == 't' && d == '-' &&
     rest.length ≥ 6 && rest.all Char.isAlphanum
   | _ => false) ||
  (match s with
   | a :: b :: c :: rest =>
     a.toLower == 't' && b.toLower == 'k' && c.toLower == 't' &&
     rest.length ≥ 6 && rest.all Char.isAlphanum
   | _ => false) ||
  (s.length ≥ 6 && s.all Char.isDigit)

-- === IdentifierDetector: mobile-number patterns (fastapp.py detect_mobile_number) ===

/-- Match of `[6-9]\d{9}\b` starting at the head of `cs`: a digit in 6–9,
nine more digits, then a word boundary (the tenth digit is a word character,
so the next character must be non-word or the end). -/
def payload10 : List Char → Option (List Char)
  | [] => none
  | c :: rest =>
    let ds := rest.take 9
    if (c == '6' || c == '7' || c == '8' || c == '9') && ds.length == 9 &&
        ds.all Char.isDigit && !isWordOpt ((rest.drop 9).head?) then
      some (c :: ds)
    else none

/-- After a literal `+91`, the optional `[\s-]?` (greedy: a consumed
whitespace character is tried first) followed by `([6-9]\d{9})\b`; the
cleaned text never contains `-`, so only a whitespace character can fill the
optional class.  Returns the ten-digit payload group. -/
def mob1AfterPrefix (cs : List Char) : Option (List Char) :=
  match cs with
  | [] => none
  | w :: rest =>
    if w.isWhitespace then
      match payload10 rest with
      | some p => some p
      | none => payload10 cs
    else payload10 cs

/-- The pattern-1 loop of `detect_mobile_number`
(`\b(\+91[\s-]?)?([6-9]\d{9})\b` over the cleaned text): the Python loop
returns the payload group of the first *prefixed* match, because an
un-prefixed match sets `mobile = match.group(0)[1:]` (nine characters),
which always fails the `len(mobile) == 10` check and is skipped.  A `+`
cannot occur inside a skipped (digit-only) match, so `re.finditer`'s
non-overlap rule cannot hide a prefixed match from this left-to-right scan.
`\b` before the `+` (a non-word character) requires a word character before
it, so a prefix at the very start of the cleaned text never matches. -/
def scanMob1 : Option Char → List Char → Option String
  | _, [] => none
  | prev, c :: cs =>
    if c == '+' && isWordOpt prev then
      match cs with
      | c1 :: c2 :: cs2 =>
        if c1 == '9' && c2 == '1' then
          match mob1AfterPrefix cs2 with
          | some p => some (String.mk p)
          | none => scanMob1 (some c) cs
        else scanMob1 (some c) cs
      | _ => scanMob1 (some c) cs
    else scanMob1 (some c) cs

/-- Existence of a match of `\b([6-9]\d{9})\b` at a position. -/
def mob2At (prev : Option Char) (cs : List Char) : Bool :=
  !isWordOpt prev && (payload10 cs).isSome

/-- Existence of a match of `\b(0\d{10})\b` at a position. -/
def mob3At (prev : Option Char) (cs : List Char) : Bool :=
  match cs with
  | c :: rest =>
    !isWordOpt prev && c == '0' && (rest.take 10).length == 10 &&
    (rest.take 10).all Char.isDigit && !isWordOpt ((rest.drop 10).head?)
  | [] => false

/-- `detect_mobile_number` (fastapp.py).  The text is first cleaned with
`re.sub(r'[^\d+\s]', '', text)`.  Pattern 1 can only ever return a
`+91`-prefixed payload (see `scanMob1`).  If pattern 2 or pattern 3 then
finds a match, the code evaluates `match.group(2)` on a single-group
pattern, which raises `IndexError`; the raise is modeled as
`Except.error ()`. -/
def detect_mobile_number (text : String) : Except Unit (Option String) :=
  let clean := text.data.filter (fun c => c.isDigit || c == '+' || c.isWhitespace)
  match scanMob1 none clean with
  | some m => Except.ok (some m)
  | none =>
    if scanAny mob2At none clean then Except.error ()
    else if scanAny mob3At none clean then Except.error ()
    else Except.ok none

/-- `validate_mobile_number_format` (fastapp.py): on the digit-only form
(`re.sub(r'\D', '', ...)`), accept 10 digits starting 6–9, or 12 digits
starting `91` then 6–9, or 11 digits starting `0` then 6–9. -/
def validate_mobile_number_format (mobile_number : String) : Bool :=
  let d := mobile_number.data.filter Char.isDigit
  (d.length == 10 && ['6', '7', '8', '9'].contains (d.headD ' ')) ||
  (d.length == 12 && d.take 2 == ['9', '1'] &&
    ['6', '7', '8', '9'].contains ((d.drop 2).headD ' ')) ||
  (d.length == 11 && d.headD ' ' == '0' &&
    ['6', '7', '8', '9'].contains ((d.drop 1).headD ' '))

/-- `detect_ticket_id_or_mobile` (fastapp.py): ticket-ID detection and
validation first; only on failure, mobile-number detection and validation.
The second component is the literal type tag the Python code returns. -/
def detect_ticket_id_or_mobile (text : String) : Except Unit (Option (String × String)) :=
  let viaMobile : Except Unit (Option (String × String)) :=
    match detect_mobile_number text with
    | Except.error e => Except.error e
    | Except.ok (some m) =>
      if validate_mobile_number_format m then Except.ok (some (m, "mobile_number"))
      else Except.ok none
    | Except.ok none => Except.ok none
  match detect_ticket_id text with
  | some t => if validate_ticket_id_format t then Except.ok (some (t, "ticket_id")) else viaMobile
  | none => viaMobile

-- === IntentClassifier (fastapp.py detect_greeting / detect_yes_no_response /
-- detect_exact_status_question) ===

/-- Match of `\bTOK\b` (a literal token) starting at the head of `cs`. -/
def wordTokenAt (tok : List Char) (prev : Option Char) (cs : List Char) : Bool :=
  boundaryAt prev cs.head? && tok.isPrefixOf cs &&
  boundaryAt tok.getLast? ((cs.drop tok.length).head?)

/-- Existence of `\bTOK\b` anywhere in the text. -/
def hasWordToken (tok : String) (cs : List Char) : Bool :=
  scanAny (wordTokenAt tok.data) none cs

/-- Match of `\bW1\s*W2\b` starting at the head of `cs` (the greeting
patterns `good\s*morning`, `शुभ\s*सकाळ`, …).  `\s*` is greedy, and `W2`
begins with a non-whitespace character, so only the maximal whitespace run
needs to be tried. -/
def twoWordAt (w1 w2 : List Char) (prev : Option Char) (cs : List Char) : Bool :=
  boundaryAt prev cs.head? && w1.isPrefixOf cs &&
  (let rest := (cs.drop w1.length).dropWhile Char.isWhitespace
   w2.isPrefixOf rest && boundaryAt w2.getLast? ((rest.drop w2.length).head?))

/-- Existence of `\bW1\s*W2\b` anywhere in the text. -/
def hasTwoWord (w1 w2 : String) (cs : List Char) : Bool :=
  scanAny (twoWordAt w1.data w2.data) none cs

/-- Match of `\bhey+\b` starting at the head of `cs`. -/
def heyAt (prev : Option Char) (cs : List Char) : Bool :=
  match cs with
  | 'h' :: 'e' :: rest =>
    !isWordOpt prev && (rest.takeWhile (· == 'y')).length ≥ 1 &&
    !isWordOpt ((rest.dropWhile (· == 'y')).head?)
  | _ => false

/-- Match of `\bhii+\b` starting at the head of `cs` (an `h` followed by at
least two `i`s). -/
def hiiAt (prev : Option Char) (cs : List Char) : Bool :=
  match cs with
  | 'h' :: 'i' :: rest =>
    !isWordOpt prev && (rest.takeWhile (· == 'i')).length ≥ 1 &&
    !isWordOpt ((rest.dropWhile (· == 'i')).head?)
  | _ => false

/-- `detect_greeting` (fastapp.py): strip, lowercase, delete the fixed
punctuation/emoji characters, then test the five bilingual categories in
source order; the first category whose pattern occurs wins. -/
def detect_greeting (text : String) : Bool × String :=
  let stripped : List Char := ['!', '.', ',', '🙂', '🙏', '✨', '⭐', '️']
  let t := (pyLower (pyStrip text)).data.filter (fun c => !stripped.contains c)
  if hasTwoWord "good" "morning" t || hasTwoWord "शुभ" "सकाळ" t then (true, "good_morning")
  else if hasTwoWord "good" "afternoon" t || hasTwoWord "शुभ" "दुपार" t then (true, "good_afternoon")
  else if hasTwoWord "good" "evening" t || hasTwoWord "शुभ" "संध्याकाळ" t then (true, "good_evening")
  else if hasWordToken "hello" t || scanAny heyAt none t || scanAny hiiAt none t ||
      hasWordToken "hi" t || hasWordToken "नमस्ते" t || hasWordToken "नमस्कार" t ||
      hasWordToken "हॅलो" t || hasWordToken "हेलो" t || hasWordToken "हाय" t then (true, "hello")
  else if hasTwoWord "good" "night" t || hasTwoWord "शुभ" "रात्री" t then (true, "good_night")
  else (false, "")

/-- `detect_yes_no_response` (fastapp.py): on the stripped, lowercased text,
the English then Marathi affirmative tokens are tried first, then the
English then Marathi negative tokens.  The `language` parameter is accepted
and ignored, exactly as in the source. -/
def detect_yes_no_response (text : String) (language : String) : String :=
  let t := (pyLower (pyStrip text)).data
  if hasWordToken "yes" t || hasWordToken "y" t || hasWordToken "yeah" t ||
      hasWordToken "yep" t || hasWordToken "होय" t || hasWordToken "हो" t then "yes"
  else if hasWordToken "no" t || hasWordToken "n" t || hasWordToken "nope" t ||
      hasWordToken "नाही" t || hasWordToken "ना" t then "no"
  else "unknown"

/-- `detect_exact_status_question` (fastapp.py): English uses substring
tests on the lowercased, stripped text; any other language uses substring
tests of the five Marathi phrases on the *original* text, as in the
source. -/
def detect_exact_status_question (text : String) (language : String) : Bool :=
  let text_lower := pyStrip (pyLower text)
  if language == "en" then
    containsSub text_lower "would you like to check the status of your ticket" ||
    containsSub text_lower "check status"
  else
    containsSub text "आपण महा आस्था तक्रार निवारण प्रणालीमध्ये नोंदवलेल्या तिकीटची स्थिती तपासू इच्छिता का" ||
    containsSub text "तिकीटची स्थिती तपासू इच्छिता का" ||
    containsSub text "स्थिती तपासू इच्छिता का" ||
    containsSub text "तिकीटची स्थिती" ||
    containsSub text "स्थिती तपासा"


-- === ResponseCatalog (fastapp.py MAHA_AASTHA_KNOWLEDGE_BASE / RATING_LABELS) ===

/-- The per-language message catalog (`MAHA_AASTHA_KNOWLEDGE_BASE`); only
the entries the modeled code paths read are carried. -/
structure KnowledgeBase where
  welcome_message : String
  initial_question : String
  status_check_question : String
  ticket_id_prompt : String
  feedback_question : String
  rating_question : String
  rating_request : String
  ticket_not_found : String
  database_error : String
  options_yes : String
  options_no : String
  yes_intro : String
  yes_link : String
  no_response : String
  help_text : String
  track_ticket_help : String

/-- English catalog entries, copied from the source dict. -/
def kbEn : KnowledgeBase where
  welcome_message := "Welcome to Maha Aastha Grievance Redressal System AI-ChatBot."
  initial_question := "Would you like to register a Ticket on the Maha Aastha Grievance Redressal System?"
  status_check_question := "Would you like to check the status of the ticket which you have registered on the Maha Aastha Grievance Redressal System?"
  ticket_id_prompt := "Please enter your Ticket ID (For example: \"TKT-12345678\")"
  feedback_question := "Would you like to provide feedback regarding the resolution of your ticket addressed through the Maha Aastha Grievance Redressal System?"
  rating_question := "Please rate your experience with the Maha Aastha Grievance Redressal System:"
  rating_request := "Rate from 1 (Poor) to 5 (Excellent)"
  ticket_not_found := "Sorry, no ticket found with the provided ID. Please check your Ticket ID and try again."
  database_error := "Unable to fetch ticket information at the moment. Please try again later."
  options_yes := "YES"
  options_no := "NO"
  yes_intro := "You can register your Ticket on the Maha Aastha Grievance Redressal System through below link:"
  yes_link := "#grievance"
  no_response := "Thank you for using the Maha Aastha Grievance Redressal System."
  help_text := "Please type \x27YES\x27 or \x27NO\x27 to proceed with your query."
  track_ticket_help := "You can also track your ticket status at: #view-ticket"

/-- Marathi catalog entries, copied from the source dict. -/
def kbMr : KnowledgeBase where
  welcome_message := "नमस्कार, महा आस्था तक्रार निवारण प्रणाली एआय-चॅटबॉटमध्ये आपले स्वागत आहे."
  initial_question := "महा आस्था तक्रार निवारण प्रणालीमध्ये आपण तिकीट नोंदवू इच्छिता का?"
  status_check_question := "आपण महा आस्था तक्रार निवारण प्रणालीमध्ये नोंदवलेल्या तिकीटची स्थिती तपासू इच्छिता का?"
  ticket_id_prompt := "कृपया आपला तिकीट क्रमांक प्रविष्ट करा (उदाहरणार्थ: \"TKT-12345678\")"
  feedback_question := "महा आस्था तक्रार निवारण प्रणालीद्वारे सोडविण्यात आलेल्या आपल्या तिकीटच्या निराकरणाबाबत अभिप्राय द्यायला इच्छिता का?"
  rating_question := "कृपया महा आस्था तक्रार निवारण प्रणालीच्या अनुभवाला रेटिंग द्या:"
  rating_request := "१ (खराब) ते ५ (उत्कृष्ट) पर्यंत रेटिंग द्या"
  ticket_not_found := "माफ करा, दिलेल्या क्रमांकाशी कोणतीही तिकीट आढळली नाही. कृपया आपला तिकीट क्रमांक तपासा आणि पुन्हा प्रयत्न करा."
  database_error := "सध्या तिकीट माहिती मिळवता येत नाही. कृपया नंतर प्रयत्न करा."
  options_yes := "होय"
  options_no := "नाही"
  yes_intro := "आपण महा आस्था तक्रार निवारण प्रणालीमध्ये आपली तिकीट खालील लिंकद्वारे नोंदवू शकता:"
  yes_link := "#grievance"
  no_response := "महा आस्था तक्रार निवारण प्रणालीचा वापर केल्याबद्दल आपले धन्यवाद."
  help_text := "कृपया \x27होय\x27 किंवा \x27नाही\x27 टाइप करून आपल्या प्रश्नासह पुढे जा."
  track_ticket_help := "आपण आपल्या तिकीटची स्थिती येथे देखील तपासू शकता: #view-ticket"

/-- `MAHA_AASTHA_KNOWLEDGE_BASE[language]`.  The dict holds exactly the
keys `en` and `mr`; every caller of this lookup runs behind the endpoint's
language validation, so the lookup is totalized with the English catalog
(theorems about it always restrict `language` to the two supported values). -/
def kb (language : String) : KnowledgeBase :=
  if language == "mr" then kbMr else kbEn

/-- `RATING_LABELS[language][rating]`, as a partial lookup. -/
def rating_labels (language : String) (rating : Nat) : Option String :=
  if language == "en" then
    match rating with
    | 1 => some "Poor"
    | 2 => some "Fair"
    | 3 => some "Good"
    | 4 => some "Very Good"
    | 5 => some "Excellent"
    | _ => none
  else if language == "mr" then
    match rating with
    | 1 => some "खराब"
    | 2 => some "सामान्य"
    | 3 => some "चांगले"
    | 4 => some "खूप चांगले"
    | 5 => some "उत्कृष्ट"
    | _ => none
  else none

/-- `greeting_reply` (fastapp.py).  The nested dict is built with
`KB = MAHA_AASTHA_KNOWLEDGE_BASE[language]`, so even the English fallback
entry embeds the *current* language's welcome message; the fallback is
`replies["en"]["hello"]`. -/
def greeting_reply (language key : String) : String :=
  let w := (kb language).welcome_message
  let enHello := "Hello! " ++ w
  if language == "en" then
    if key == "good_morning" then "Good Morning! " ++ w
    else if key == "good_afternoon" then "Good Afternoon! " ++ w
    else if key == "good_evening" then "Good Evening! " ++ w
    else if key == "good_night" then "Good Night! " ++ w
    else if key == "hello" then enHello
    else enHello
  else if language == "mr" then
    if key == "good_morning" then "शुभ सकाळ! " ++ w
    else if key == "good_afternoon" then "शुभ दुपार! " ++ w
    else if key == "good_evening" then "शुभ संध्याकाळ! " ++ w
    else if key == "good_night" then "शुभ रात्री! " ++ w
    else if key == "hello" then w
    else enHello
  else enHello

/-- `get_initial_response_with_status_option` (fastapp.py). -/
def get_initial_response_with_status_option (language : String) : String :=
  let k := kb language
  if language == "mr" then
    k.welcome_message ++ "\n" ++
    "प्रश्न क्र. १: " ++ k.initial_question ++ "\n" ++
    "उत्तर १ - \"" ++ k.options_yes ++ "\"\n" ++
    "उत्तर २ - \"" ++ k.options_no ++ "\"\n" ++
    "प्रश्न क्र. २: " ++ k.status_check_question ++ "\n" ++
    "उत्तर - \"स्थिती तपासा\" किंवा आपला तिकीट क्रमांक टाइप करा\n" ++
    "उदाहरण: TKT-12345678"
  else
    k.welcome_message ++ "\n" ++
    "Question 1: " ++ k.initial_question ++ "\n" ++
    "Answer 1: \"" ++ k.options_yes ++ "\"\n" ++
    "Answer 2: \"" ++ k.options_no ++ "\"\n" ++
    "Question 2: " ++ k.status_check_question ++ "\n" ++
    "Answer: Type \"Check Status\" or enter your Ticket ID\n" ++
    "Example: TKT-12345678"

/-- `get_feedback_question` (fastapp.py). -/
def get_feedback_question (language : String) : String :=
  let k := kb language
  if language == "mr" then
    "प्रश्न क्र. २.२: " ++ k.feedback_question ++ "\n" ++
    "उत्तर १ - \"" ++ k.options_yes ++ "\"\n" ++
    "उत्तर २ - \"" ++ k.options_no ++ "\""
  else
    "Question 2.2: " ++ k.feedback_question ++ "\n" ++
    "Answer 1: \"" ++ k.options_yes ++ "\"\n" ++
    "Answer 2: \"" ++ k.options_no ++ "\""

/-- `get_rating_request` (fastapp.py). -/
def get_rating_request (language : String) : String :=
  let k := kb language
  if language == "mr" then
    k.rating_question ++ "\n" ++ k.rating_request ++ "\n" ++
    "१ - " ++ (rating_labels "mr" 1).getD "" ++ "\n" ++
    "२ - " ++ (rating_labels "mr" 2).getD "" ++ "\n" ++
    "३ - " ++ (rating_labels "mr" 3).getD "" ++ "\n" ++
    "४ - " ++ (rating_labels "mr" 4).getD "" ++ "\n" ++
    "५ - " ++ (rating_labels "mr" 5).getD ""
  else
    k.rating_question ++ "\n" ++ k.rating_request ++ "\n" ++
    "1 - " ++ (rating_labels "en" 1).getD "" ++ "\n" ++
    "2 - " ++ (rating_labels "en" 2).getD "" ++ "\n" ++
    "3 - " ++ (rating_labels "en" 3).getD "" ++ "\n" ++
    "4 - " ++ (rating_labels "en" 4).getD "" ++ "\n" ++
    "5 - " ++ (rating_labels "en" 5).getD ""

-- === TicketStore (database.py DatabaseManager) and status formatting ===

/-- A row of `public.grievancess` as consumed by the formatting code.
`created_at` / `updated_at` hold the `%d-%b-%Y`-formatted display date (date
formatting is outside the modeled logic); optional fields model SQL `NULL`
or empty values, which Python truthiness skips. -/
structure TicketData where
  ticket : String
  status : String
  created_at : Option String
  updated_at : Option String
  employee_name : String
  issue_category : String
  district_name : Option String
  office_name : Option String
  subject : Option String
deriving DecidableEq

/-- The `status_map` table inside `DatabaseManager.get_ticket_status`; the
`.get(current_status, current_status)` default keeps unknown statuses. -/
def status_map (s : String) : String :=
  if s == "Open" then "Open"
  else if s == "In Progress" then "In Progress"
  else if s == "Resolved" then "Resolved"
  else if s == "Closed" then "Closed"
  else if s == "Pending" then "Pending"
  else s

/-- `DatabaseManager.get_ticket_status` (database.py).  `fetch` stands for
acquiring a connection and running the SQL lookup; it may fail with an
infrastructure error.  Without a pool the method returns `None`; the
`try/except` around the body catches *every* exception, logs it, and also
returns `None` — an infrastructure failure is indistinguishable from a
lookup miss at this boundary. -/
def db_get_ticket_status (pool : Bool) (fetch : String → Except Unit (Option TicketData))
    (identifier : String) : Option TicketData :=
  if !pool then none
  else
    match fetch (pyStrip identifier) with
    | Except.error _ => none
    | Except.ok none => none
    | Except.ok (some td) => some { td with status := status_map td.status }

/-- `format_simple_ticket_status` (fastapp.py). -/
def format_simple_ticket_status (ticket_data : Option TicketData) (language : String) : String :=
  match ticket_data with
  | none => if language == "en" then "Ticket not found" else "तिकीट आढळले नाही"
  | some d =>
    let created := d.created_at.getD "Not available"
    if language == "en" then
      "The current status of your Ticket is as follows:\n" ++
      "Ticket ID: " ++ d.ticket ++ "\n" ++
      "Status: " ++ d.status ++ "\n" ++
      "Created: " ++ created ++ "\n" ++
      "Employee Name: " ++ d.employee_name ++ "\n" ++
      "Category: " ++ d.issue_category ++
      (match d.district_name with | some x => "\nDistrict: " ++ x | none => "") ++
      (match d.office_name with | some x => "\nOffice: " ++ x | none => "") ++
      (match d.subject with | some x => "\nSubject: " ++ x | none => "") ++
      (match d.updated_at with | some x => "\nLast Updated: " ++ x | none => "")
    else
      "आपल्या तिकीटची सद्यस्थिती खालीलप्रमाणे आहे:\n" ++
      "तिकीट क्रमांक: " ++ d.ticket ++ "\n" ++
      "स्थिती: " ++ d.status ++ "\n" ++
      "दाखल दिनांक: " ++ created ++ "\n" ++
      "कर्मचारी नाव: " ++ d.employee_name ++ "\n" ++
      "श्रेणी: " ++ d.issue_category ++
      (match d.district_name with | some x => "\nजिल्हा: " ++ x | none => "") ++
      (match d.office_name with | some x => "\nकार्यालय: " ++ x | none => "") ++
      (match d.subject with | some x => "\nविषय: " ++ x | none => "") ++
      (match d.updated_at with | some x => "\nशेवटचा अद्यतन: " ++ x | none => "")

-- === DialogueEngine (fastapp.py process_maha_aastha_query) ===

/-- The found-ticket reply of the identifier short-circuit: formatted
status, a mobile-match note when the identifier was a mobile number, and
the tracking-help footer. -/
def found_reply (language identifier_type identifier : String) (td : TicketData) : String :=
  let s := format_simple_ticket_status (some td) language
  let s :=
    if identifier_type == "mobile_number" then
      if language == "mr" then
        s ++ "\n\n📱 मोबाइल नंबरद्वारे शोधले गेले: " ++ identifier
      else
        s ++ "\n\n📱 Found using mobile number: " ++ identifier
    else s
  s ++ "\n\n🔗 " ++ (kb language).track_ticket_help

/-- The lookup-miss reply of the identifier short-circuit (fastapp.py lines
559–565): mobile-specific message embedding the number, or the generic
catalog message for a ticket ID. -/
def not_found_reply (language identifier_type identifier : String) : String :=
  if identifier_type == "mobile_number" then
    if language == "mr" then
      "माफ करा, " ++ identifier ++ " या मोबाइल नंबरसाठी कोणतीही तिकीट आढळली नाही. कृपया आपला तिकीट क्रमांक किंवा नोंदणीकृत मोबाइल नंबर तपासा."
    else
      "Sorry, no ticket found for mobile number " ++ identifier ++ ". Please check your ticket ID or registered mobile number."
  else (kb language).ticket_not_found

/-- The shorter lookup-miss reply used inside the status-question and
waiting-for-ticket-id branches (fastapp.py lines 595–601 and 633–639). -/
def not_found_reply_short (language identifier_type identifier : String) : String :=
  if identifier_type == "mobile_number" then
    if language == "mr" then
      "माफ करा, " ++ identifier ++ " या मोबाइल नंबरसाठी कोणतीही तिकीट आढळली नाही."
    else
      "Sorry, no ticket found for mobile number " ++ identifier ++ "."
  else (kb language).ticket_not_found

/-- The prompt issued when the status question is recognised but no valid
identifier is present (fastapp.py lines 606–612). -/
def ticket_id_prompt_with_mobile (language : String) : String :=
  if language == "mr" then
    (kb language).ticket_id_prompt ++ "\n" ++
    "किंवा आपला नोंदणीकृत मोबाइल नंबर प्रविष्ट करा (उदाहरणार्थ: 9876543210)"
  else
    (kb language).ticket_id_prompt ++ "\n" ++
    "Or enter your registered mobile number (Example: 9876543210)"

/-- The re-prompt of the waiting-for-ticket-id stage when the text carries
no valid identifier (fastapp.py lines 643–647). -/
def invalid_identifier_reprompt (language : String) : String :=
  if language == "mr" then
    "कृपया योग्य तिकीट क्रमांक किंवा 10-अंकी मोबाइल नंबर प्रदान करा."
  else
    "Please provide a valid Ticket ID or 10-digit mobile number."

/-- The registration keyword test of the initial guard (fastapp.py lines
665–668): any of the bilingual keywords as a substring of the lowercased
input. -/
def has_registration_keyword (input_text : String) : Bool :=
  containsSub (pyLower input_text) "register" ||
  containsSub (pyLower input_text) "ticket" ||
  containsSub (pyLower input_text) "complaint" ||
  containsSub (pyLower input_text) "तिकीट" ||
  containsSub (pyLower input_text) "नोंदवू" ||
  containsSub (pyLower input_text) "शिकायत"

/-- Guard 1 of the engine (fastapp.py lines 542–568): the stage-independent
identifier short-circuit.  Lookup hit, miss and raised store error each
produce a return; none of the branches touches the session map, so the
stage component is whatever it was before the call. -/
def identifier_shortcircuit (store : String → Except Unit (Option TicketData))
    (language identifier identifier_type : String) (stage? : Option String) :
    String × Option String :=
  match store identifier with
  | Except.error _ => ((kb language).database_error, stage?)
  | Except.ok (some td) => (found_reply language identifier_type identifier td, stage?)
  | Except.ok none => (not_found_reply language identifier_type identifier, stage?)

/-- The identifier lookup-and-format block shared by the status-question
and waiting-for-ticket-id guards (fastapp.py lines 580–604 and 618–642);
on success the session stage becomes `status_shown`, on miss or store error
the stage is the (already created) current stage. -/
def lookup_and_show (store : String → Except Unit (Option TicketData))
    (language identifier identifier_type stage : String) : String × Option String :=
  match store identifier with
  | Except.error _ => ((kb language).database_error, some stage)
  | Except.ok (some td) => (found_reply language identifier_type identifier td, some "status_shown")
  | Except.ok none => (not_found_reply_short language identifier_type identifier, some stage)

/-- `process_maha_aastha_query` (fastapp.py).

Arguments: `store` abstracts `db_manager.get_ticket_status` (the only
store operation this function calls; a raised exception is `Except.error`),
`input_text` the message, `stage?` the session's stage before the call
(`none` when the session id is not yet in `USER_SESSION_STATE`), `language`
the validated request language.

Result: `Except.error ()` when the Python function raises (the unguarded
`detect_ticket_id_or_mobile` call can raise `IndexError`, see
`detect_mobile_number`); otherwise the reply together with the session's
stage after the call (`none` when the session was never created — the
identifier short-circuit returns before the session-creation line). -/
def process_maha_aastha_query (store : String → Except Unit (Option TicketData))
    (input_text : String) (stage? : Option String) (language : String) :
    Except Unit (String × Option String) :=
  match detect_ticket_id_or_mobile input_text with
  | Except.error e => Except.error e
  | Except.ok (some (identifier, identifier_type)) =>
    Except.ok (identifier_shortcircuit store language identifier identifier_type stage?)
  | Except.ok none =>
    -- session creation: a missing session enters at stage "initial"
    let stage := stage?.getD "initial"
    let response_type := detect_yes_no_response input_text language
    if detect_exact_status_question input_text language then
      -- the inner detection repeats the call on the same text (source
      -- line 577); on this branch it necessarily returns `none` again
      match detect_ticket_id_or_mobile input_text with
      | Except.error e => Except.error e
      | Except.ok (some (identifier, identifier_type)) =>
        if validate_ticket_id_format identifier || validate_mobile_number_format identifier then
          Except.ok (lookup_and_show store language identifier identifier_type stage)
        else Except.ok (ticket_id_prompt_with_mobile language, some "waiting_for_ticket_id")
      | Except.ok none =>
        Except.ok (ticket_id_prompt_with_mobile language, some "waiting_for_ticket_id")
    else if stage == "waiting_for_ticket_id" then
      match detect_ticket_id_or_mobile input_text with
      | Except.error e => Except.error e
      | Except.ok (some (identifier, identifier_type)) =>
        if validate_ticket_id_format identifier || validate_mobile_number_format identifier then
          Except.ok (lookup_and_show store language identifier identifier_type stage)
        else Except.ok (invalid_identifier_reprompt language, some stage)
      | Except.ok none =>
        Except.ok (invalid_identifier_reprompt language, some stage)
    else if containsSub (pyLower input_text) "feedback" ||
        containsSub (pyLower input_text) "अभिप्राय" then
      Except.ok (get_feedback_question language, some "feedback_question")
    else if stage == "feedback_question" then
      if response_type == "yes" then
        Except.ok (get_rating_request language, some "rating_request")
      else if response_type == "no" then
        Except.ok ((kb language).no_response, some "completed")
      else
        Except.ok ((kb language).help_text, some stage)
    else if stage == "initial" || has_registration_keyword input_text then
      if response_type == "yes" then
        Except.ok ((kb language).yes_intro ++ "\n\n" ++ (kb language).yes_link, some "registration_info")
      else if response_type == "no" then
        Except.ok (get_feedback_question language, some "feedback_question")
      else
        Except.ok (get_initial_response_with_status_option language, some "awaiting_response")
    else
      Except.ok (get_initial_response_with_status_option language, some stage)

-- === /query/ endpoint (fastapp.py process_query) ===

/-- What the `/query/` handler sends back, paired with the session stage
after the call (the handler itself mutates no session state; only the
engine does). -/
structure EndpointReply where
  status : Nat
  reply : String
  stage : Option String
deriving DecidableEq

/-- `process_query` (fastapp.py): the `/query/` handler body.  Validation
(non-empty stripped text, supported language) first; then the greeting
short-circuit, which replies *before* the dialogue engine is ever invoked
and touches neither the store nor the session state; otherwise the engine
runs, and an exception from it is mapped to the 500 reply. -/
def process_query (store : String → Except Unit (Option TicketData))
    (input_text : String) (stage? : Option String) (language0 : String) : EndpointReply :=
  let input := pyStrip input_text
  let language := pyLower language0
  if input == "" then
    { status := 400
      reply := if language == "mr" then "कृपया एक वैध प्रश्न प्रदान करा." else "Please provide a valid query."
      stage := stage? }
  else if !(language == "en" || language == "mr") then
    { status := 400
      reply := "Language \x27" ++ language ++ "\x27 not supported. Use: en, mr"
      stage := stage? }
  else
    match detect_greeting input with
    | (true, key) => { status := 200, reply := greeting_reply language key, stage := stage? }
    | (false, _) =>
      match process_maha_aastha_query store input stage? language with
      | Except.ok (r, st) => { status := 200, reply := r, stage := st }
      | Except.error _ =>
        { status := 500
          reply := if language == "mr" then
              "तुमचा प्रश्न प्रक्रिया करतान त्रुटी आली. कृपया नंतर पुन्हा प्रयत्न करा."
            else "An error occurred while processing your query. Please try again later."
          stage := stage? }

-- === Ratings ledger and CSV export (fastapp.py save_rating_data / export_ratings) ===

/-- One entry of the in-memory `RATINGS_DATA` ledger (the dict appended by
`save_rating_data`; its label key is spelled `Feedback` in the source). -/
structure RatingEntry where
  timestamp : String
  session_id : String
  rating : Nat
  feedback : String
  language : String
  ticket_id : String
deriving DecidableEq

/-- The in-memory ledger append of `save_rating_data`: the entry's feedback
field is `RATING_LABELS[language][rating]` (a `KeyError` — unsupported
language or out-of-range rating — propagates before anything is appended,
modeled as `none`), and a missing ticket id is stored as `"N/A"`. -/
def save_rating_entry (timestamp session_id : String) (rating : Nat) (language : String)
    (ticket_id : Option String) : Option RatingEntry :=
  (rating_labels language rating).map fun lbl =>
    { timestamp := timestamp
      session_id := session_id
      rating := rating
      feedback := lbl
      language := language
      ticket_id := ticket_id.getD "N/A" }

/-- One CSV field under the `csv` module's default `excel` dialect
(QUOTE_MINIMAL): a field containing a delimiter, quote or line break is
wrapped in double quotes with inner quotes doubled. -/
def csvField (s : String) : String :=
  if s.data.any (fun c => c == ',' || c == '"' || c == '\r' || c == '\n') then
    "\"" ++ String.mk (s.data.foldr (fun c acc => if c == '"' then '"' :: '"' :: acc else c :: acc) []) ++ "\""
  else s

/-- One CSV record: comma-joined fields terminated by the writer's default
`\r\n`. -/
def csvRow (fields : List String) : String :=
  String.intercalate "," (fields.map csvField) ++ "\r\n"

/-- The row `export_ratings` writes for one ledger entry (the `Feedback`
value is emitted under the lowercase `feedback` column; `csv` stringifies
the integer rating). -/
def rating_row (e : RatingEntry) : String :=
  csvRow [e.timestamp, e.session_id, toString e.rating, e.feedback, e.language, e.ticket_id]

/-- `export_ratings` (fastapp.py): 404 (`none`) on an empty ledger;
otherwise a UTF-8 byte-order mark, the header record, and one record per
ledger entry in insertion order. -/
def export_ratings (ledger : List RatingEntry) : Option String :=
  if ledger.isEmpty then none
  else
    some ("\uFEFF" ++
      csvRow ["timestamp", "session_id", "rating", "feedback", "language", "ticket_id"] ++
      String.join (ledger.map rating_row))



/-- The stored record of the C2 scenario: ticket `TKT-ab12cd`, status
`Resolved`. -/
def ticketC2 : TicketData :=
  { ticket := "TKT-ab12cd"
    status := "Resolved"
    created_at := some "01-Jan-2025"
    updated_at := none
    employee_name := "John"
    issue_category := "Other"
    district_name := none
    office_name := none
    subject := none }

/-- The C2 store: exactly one record, keyed by `TKT-ab12cd`. -/
def storeC2 : String → Except Unit (Option TicketData) := fun i =>
  if i == "TKT-ab12cd" then Except.ok (some ticketC2) else Except.ok none

/-- The reply the engine produces in the C2 scenario. -/
def c2_reply (language : String) : String :=
  found_reply language "ticket_id" "TKT-ab12cd" ticketC2

/-- A concrete ledger entry (a 5-star Marathi rating), used to instantiate
the export theorem. -/
def ratingEntryC9 : RatingEntry :=
  { timestamp := "2025-01-01 00:00:00"
    session_id := "s1"
    rating := 5
    feedback := "उत्कृष्ट"
    language := "mr"
    ticket_id := "N/A" }

-- === Helper lemmas shared by the claim theorems ===

/-- When the detector yields an identifier, the engine takes the guard-1
short-circuit. -/
theorem process_guard1 (store : String → Except Unit (Option TicketData))
    (input_text : String) (stage? : Option String) (language id ty : String)
    (h : detect_ticket_id_or_mobile input_text = Except.ok (some (id, ty))) :
    process_maha_aastha_query store input_text stage? language =
      Except.ok (identifier_shortcircuit store language id ty stage?) := by
  unfold process_maha_aastha_query
  rw [h]

/-- Guard 1 on a lookup miss. -/
theorem identifier_shortcircuit_miss (store : String → Except Unit (Option TicketData))
    (language id ty : String) (stage? : Option String)
    (h : store id = Except.ok none) :
    identifier_shortcircuit store language id ty stage? =
      (not_found_reply language ty id, stage?) := by
  unfold identifier_shortcircuit
  rw [h]

/-- Guard 1 on a raised store error. -/
theorem identifier_shortcircuit_error (store : String → Except Unit (Option TicketData))
    (language id ty : String) (stage? : Option String) (e : Unit)
    (h : store id = Except.error e) :
    identifier_shortcircuit store language id ty stage? =
      ((kb language).database_error, stage?) := by
  unfold identifier_shortcircuit
  rw [h]

/-- Guard 1 on a lookup hit. -/
theorem identifier_shortcircuit_found (store : String → Except Unit (Option TicketData))
    (language id ty : String) (stage? : Option String) (td : TicketData)
    (h : store id = Except.ok (some td)) :
    identifier_shortcircuit store language id ty stage? =
      (found_reply language ty id td, stage?) := by
  unfold identifier_shortcircuit
  rw [h]

/-- `ticket_id`-typed misses produce the generic catalog message. -/
theorem not_found_reply_ticket (language id : String) :
    not_found_reply language "ticket_id" id = (kb language).ticket_not_found := rfl

-- === C1 ===

/-- C1 counterexample: with stage `initial`, input `"9876543210"` and a
store with no matching record, the engine's reply is the *generic*
ticket-not-found catalog message, which is not the mobile-specific
not-found message the claim requires. -/
theorem c1_counterexample :
    process_maha_aastha_query (fun _ => Except.ok none) "9876543210" (some "initial") "en" =
      Except.ok ((kb "en").ticket_not_found, some "initial") ∧
    (kb "en").ticket_not_found ≠ not_found_reply "en" "mobile_number" "9876543210" := by
  constructor
  · decide
  · decide

/-- C1 (amended): a bare 10-digit string is detected as a *ticket ID*
(digit-run pattern, ticket precedence), so with a store holding no matching
record the engine replies with the generic ticket-not-found message in the
requested language, and the session stage is unchanged. -/
theorem c1_bare_digits_not_found (store : String → Except Unit (Option TicketData))
    (language : String) (hl : language = "en" ∨ language = "mr")
    (hs : store "9876543210" = Except.ok none) :
    process_maha_aastha_query store "9876543210" (some "initial") language =
      Except.ok ((kb language).ticket_not_found, some "initial") := by
  have hdet : detect_ticket_id_or_mobile "9876543210" =
      Except.ok (some ("9876543210", "ticket_id")) := by decide
  rw [process_guard1 store _ _ language _ _ hdet,
    identifier_shortcircuit_miss store language _ _ _ hs,
    not_found_reply_ticket]

/-- C1 witness: the amended theorem applied at language `"en"` and the
empty store. -/
theorem c1_witness :
    process_maha_aastha_query (fun _ => Except.ok none) "9876543210" (some "initial") "en" =
      Except.ok ((kb "en").ticket_not_found, some "initial") :=
  c1_bare_digits_not_found (fun _ => Except.ok none) "en" (Or.inl rfl) rfl

-- === C2 ===

/-- C2 counterexample: in stage `waiting_for_ticket_id` with input
`TKT-ab12cd` and a store returning a `Resolved` record, the stage after the
call is still `waiting_for_ticket_id` — not `status_shown` as the claim
requires — because the stage-independent guard-1 short-circuit answers
before the waiting-for-ticket-id branch and never modifies the stage. -/
theorem c2_counterexample :
    process_maha_aastha_query storeC2 "TKT-ab12cd" (some "waiting_for_ticket_id") "en" =
      Except.ok (c2_reply "en", some "waiting_for_ticket_id") ∧
    (some "waiting_for_ticket_id" : Option String) ≠ some "status_shown" := by
  constructor
  · decide
  · decide

/-- C2 (amended): the reply does contain the literal substrings
`TKT-ab12cd` and `Resolved` in either requested language, but the session
stage is unchanged (it remains `waiting_for_ticket_id`). -/
theorem c2_reply_contains_stage_unchanged :
    (process_maha_aastha_query storeC2 "TKT-ab12cd" (some "waiting_for_ticket_id") "en" =
        Except.ok (c2_reply "en", some "waiting_for_ticket_id") ∧
      containsSub (c2_reply "en") "TKT-ab12cd" = true ∧
      containsSub (c2_reply "en") "Resolved" = true) ∧
    (process_maha_aastha_query storeC2 "TKT-ab12cd" (some "waiting_for_ticket_id") "mr" =
        Except.ok (c2_reply "mr", some "waiting_for_ticket_id") ∧
      containsSub (c2_reply "mr") "TKT-ab12cd" = true ∧
      containsSub (c2_reply "mr") "Resolved" = true) := by
  refine ⟨⟨by decide, by decide, by decide⟩, ⟨by decide, by decide, by decide⟩⟩

-- === C4 ===

/-- C4: `detect_mobile_number` is *not* total.  On `"a9876543210"` the
cleaned text is the bare ten-digit run `9876543210`; pattern 1 matches it
without the `+91` prefix, so the loop computes `match.group(0)[1:]` (nine
characters) and skips it, and pattern 2 then matches — whereupon the code
evaluates `match.group(2)` on a single-group pattern and raises
`IndexError`.  The raise propagates through `detect_ticket_id_or_mobile`
(no ticket pattern matches) and out of the unguarded engine call. -/
theorem c4_detect_mobile_number_raises :
    detect_mobile_number "a9876543210" = Except.error () ∧
    process_maha_aastha_query (fun _ => Except.ok none) "a9876543210" (some "initial") "en" =
      Except.error () := by
  constructor
  · decide
  · decide

-- === C7 ===

/-- C7: `detect_yes_no_response` never branches on its language argument —
both the English and the Marathi token sets are always checked — so its
result is identical for any two languages. -/
theorem c7_language_insensitive (text l1 l2 : String) :
    detect_yes_no_response text l1 = detect_yes_no_response text l2 := rfl

-- === C8 ===

/-- C8: `"hello good night"` contains both a `hello` and a `good night`
token; the fixed pattern list tests the `hello` category before
`good_night`, so detection resolves to `hello`. -/
theorem c8_greeting_priority :
    detect_greeting "hello good night" = (true, "hello") := by decide

-- === C3 ===

/-- C3 counterexample: route the engine through the repository's own store
layer (`DatabaseManager.get_ticket_status`) with the underlying fetch
failing on every identifier.  The store layer catches the infrastructure
error and returns `None`, so the engine replies with the *not-found*
message, not the database-error message the claim requires. -/
theorem c3_counterexample :
    process_maha_aastha_query
        (fun i => Except.ok (db_get_ticket_status true (fun _ => Except.error ()) i))
        "TKT-ab12cd" (some "initial") "en" =
      Except.ok ((kb "en").ticket_not_found, some "initial") ∧
    (kb "en").ticket_not_found ≠ (kb "en").database_error := by
  constructor
  · decide
  · decide

/-- C3 (amended): for any input carrying a valid identifier, (a) composed
with the repository's `DatabaseManager.get_ticket_status`, an
infrastructure failure of the underlying lookup is swallowed into `None`,
so the engine replies with the not-found message (mobile-specific or
generic) and leaves the stage unchanged — retrying the identical call gives
the identical result; (b) only a store that *raises* into the engine
produces the localized database-error message, again with the stage
unchanged. -/
theorem c3_store_failure_behavior (fetch : String → Except Unit (Option TicketData))
    (input_text : String) (stage? : Option String) (language id ty : String)
    (hl : language = "en" ∨ language = "mr")
    (hdet : detect_ticket_id_or_mobile input_text = Except.ok (some (id, ty)))
    (hf : fetch (pyStrip id) = Except.error ()) :
    process_maha_aastha_query (fun i => Except.ok (db_get_ticket_status true fetch i))
        input_text stage? language =
      Except.ok (not_found_reply language ty id, stage?) ∧
    process_maha_aastha_query (fun _ => Except.error ()) input_text stage? language =
      Except.ok ((kb language).database_error, stage?) := by
  constructor
  · rw [process_guard1 _ _ _ language _ _ hdet]
    rw [identifier_shortcircuit_miss]
    unfold db_get_ticket_status
    rw [hf]
    rfl
  · rw [process_guard1 _ _ _ language _ _ hdet]
    rw [identifier_shortcircuit_error _ language id ty stage? () rfl]

/-- C3 witness: the amended theorem applied at input `TKT-ab12cd` with an
always-failing fetch. -/
theorem c3_witness :
    process_maha_aastha_query
        (fun i => Except.ok (db_get_ticket_status true (fun _ => Except.error ()) i))
        "TKT-ab12cd" (some "initial") "en" =
      Except.ok (not_found_reply "en" "ticket_id" "TKT-ab12cd", some "initial") ∧
    process_maha_aastha_query (fun _ => Except.error ()) "TKT-ab12cd" (some "initial") "en" =
      Except.ok ((kb "en").database_error, some "initial") :=
  c3_store_failure_behavior (fun _ => Except.error ()) "TKT-ab12cd" (some "initial")
    "en" "TKT-ab12cd" "ticket_id" (Or.inl rfl) (by decide) rfl

-- === C6 ===

/-- C6: from stage `initial`, input `"yes"` (or `"होय"`) transitions the
session to `registration_info` with the registration-link reply; from stage
`feedback_question`, input `"no"` transitions to `completed` with the
closing message, and `completed` is not `initial`.  None of these inputs
carries an identifier, so the transitions hold for every store. -/
theorem c6_state_machine_transitions (store : String → Except Unit (Option TicketData))
    (language : String) (hl : language = "en" ∨ language = "mr") :
    process_maha_aastha_query store "yes" (some "initial") language =
      Except.ok ((kb language).yes_intro ++ "\n\n" ++ (kb language).yes_link,
        some "registration_info") ∧
    process_maha_aastha_query store "होय" (some "initial") language =
      Except.ok ((kb language).yes_intro ++ "\n\n" ++ (kb language).yes_link,
        some "registration_info") ∧
    process_maha_aastha_query store "no" (some "feedback_question") language =
      Except.ok ((kb language).no_response, some "completed") ∧
    (some "completed" : Option String) ≠ some "initial" := by
  rcases hl with rfl | rfl
  · exact ⟨rfl, rfl, rfl, by decide⟩
  · exact ⟨rfl, rfl, rfl, by decide⟩

/-- C6 witness: the transition theorem applied at language `"en"` and the
empty store. -/
theorem c6_witness :
    process_maha_aastha_query (fun _ => Except.ok none) "yes" (some "initial") "en" =
      Except.ok ((kb "en").yes_intro ++ "\n\n" ++ (kb "en").yes_link,
        some "registration_info") ∧
    process_maha_aastha_query (fun _ => Except.ok none) "no" (some "feedback_question") "en" =
      Except.ok ((kb "en").no_response, some "completed") :=
  ⟨(c6_state_machine_transitions (fun _ => Except.ok none) "en" (Or.inl rfl)).1,
   (c6_state_machine_transitions (fun _ => Except.ok none) "en" (Or.inl rfl)).2.2.1⟩

-- === C10 ===

/-- C10: whenever `detect_greeting` finds a greeting token in the stripped
input of a valid request, the `/query/` endpoint returns the greeting reply
with status 200 and the session stage unchanged, for *every* store — the
greeting short-circuit replies before the dialogue engine (and hence any
identifier lookup) can run. -/
theorem c10_greeting_overrides (store : String → Except Unit (Option TicketData))
    (input_text : String) (stage? : Option String) (language key : String)
    (hl : language = "en" ∨ language = "mr")
    (hne : pyStrip input_text ≠ "")
    (hg : detect_greeting (pyStrip input_text) = (true, key)) :
    process_query store input_text stage? language =
      { status := 200, reply := greeting_reply language key, stage := stage? } := by
  have hne' : (pyStrip input_text == "") = false := by
    simpa using hne
  rcases hl with rfl | rfl
  · have h2 : pyLower "en" = "en" := by decide
    simp [process_query, hne', hg, h2]
  · have h2 : pyLower "mr" = "mr" := by decide
    simp [process_query, hne', hg, h2]

/-- C10 witness: the theorem applied at `"hello TKT-ab12cd"` (which also
carries a valid ticket ID) with the empty store. -/
theorem c10_witness :
    process_query (fun _ => Except.ok none) "hello TKT-ab12cd" (some "initial") "en" =
      { status := 200, reply := greeting_reply "en" "hello", stage := some "initial" } :=
  c10_greeting_overrides (fun _ => Except.ok none) "hello TKT-ab12cd" (some "initial")
    "en" "hello" (Or.inl rfl) (by decide) (by decide)

-- === C5 ===

/-- C5: `validate_mobile_number_format` accepts every 10-digit string
starting 6–9, and rejects every string whose digit-stripped form either has
fewer than 10 digits or has exactly 10 digits starting 0–5 (such a form can
be neither of the recognised 11/12-digit prefixed shapes). -/
theorem c5_validate_mobile_number_format :
    (∀ (s : String) (c : Char) (rest : List Char),
        s.data = c :: rest → rest.length = 9 → (∀ a ∈ s.data, a.isDigit = true) →
        c ∈ ['6', '7', '8', '9'] → validate_mobile_number_format s = true) ∧
    (∀ s : String,
        ((s.data.filter Char.isDigit).length < 10 ∨
          ((s.data.filter Char.isDigit).length = 10 ∧
            ∀ c ∈ (s.data.filter Char.isDigit).head?, c ∈ ['0', '1', '2', '3', '4', '5'])) →
        validate_mobile_number_format s = false) := by
  constructor
  · intro s c rest hs hlen hdig hc
    have hfil : s.data.filter Char.isDigit = s.data := List.filter_eq_self.mpr hdig
    have hL : (c :: rest).length = 10 := by simp [hlen]
    simp only [validate_mobile_number_format]
    rw [hfil, hs]
    have h1 : ((c :: rest).length == 10 &&
        ['6', '7', '8', '9'].contains ((c :: rest).headD ' ')) = true := by
      rw [hL]
      show (10 == 10 && ['6', '7', '8', '9'].contains c) = true
      fin_cases hc <;> decide
    rw [h1]
    simp
  · intro s h
    simp only [validate_mobile_number_format]
    rcases h with h | ⟨h10, hhd⟩
    · have e10 : ((s.data.filter Char.isDigit).length == 10) = false := by
        simp only [beq_eq_false_iff_ne]; omega
      have e12 : ((s.data.filter Char.isDigit).length == 12) = false := by
        simp only [beq_eq_false_iff_ne]; omega
      have e11 : ((s.data.filter Char.isDigit).length == 11) = false := by
        simp only [beq_eq_false_iff_ne]; omega
      simp [e10, e12, e11]
    · have e12 : ((s.data.filter Char.isDigit).length == 12) = false := by
        simp only [beq_eq_false_iff_ne]; omega
      have e11 : ((s.data.filter Char.isDigit).length == 11) = false := by
        simp only [beq_eq_false_iff_ne]; omega
      obtain ⟨c, tl, hcons⟩ : ∃ c tl, s.data.filter Char.isDigit = c :: tl := by
        cases hK : s.data.filter Char.isDigit with
        | nil => rw [hK] at h10; simp at h10
        | cons c tl => exact ⟨c, tl, rfl⟩
      have hc : c ∈ ['0', '1', '2', '3', '4', '5'] := hhd c (by rw [hcons]; rfl)
      have econt : (['6', '7', '8', '9'].contains ((s.data.filter Char.isDigit).headD ' ')) = false := by
        rw [hcons]
        show (['6', '7', '8', '9'].contains c) = false
        fin_cases hc <;> decide
      simp only [econt, e12, e11, Bool.and_false, Bool.false_and, Bool.false_or,
        Bool.or_false, Bool.or_self]

/-- C5 witness: the acceptance half at `"6123456789"`, the rejection half
at `"12345"` (five digits). -/
theorem c5_witness :
    validate_mobile_number_format "6123456789" = true ∧
    validate_mobile_number_format "12345" = false :=
  ⟨c5_validate_mobile_number_format.1 "6123456789" '6' "123456789".data (by decide)
      (by decide) (by decide) (by decide),
    c5_validate_mobile_number_format.2 "12345" (Or.inl (by decide))⟩

-- === C9 ===

/-- C9: for every non-empty ledger whose entries carry the catalog label
for their language and rating (as `save_rating_entry` guarantees), the CSV
export is exactly a UTF-8 byte-order mark, the literal header record
`timestamp,session_id,rating,feedback,language,ticket_id`, and one record
per entry in insertion order whose feedback field is the catalog's rating
label for that entry's language and rating. -/
theorem c9_export_ratings_format (ledger : List RatingEntry) (hne : ledger ≠ [])
    (hlab : ∀ e ∈ ledger, rating_labels e.language e.rating = some e.feedback) :
    export_ratings ledger =
      some ("\uFEFF" ++ "timestamp,session_id,rating,feedback,language,ticket_id\r\n" ++
        String.join (ledger.map (fun e =>
          csvRow [e.timestamp, e.session_id, toString e.rating,
            (rating_labels e.language e.rating).getD "", e.language, e.ticket_id]))) := by
  have hhe : ledger.isEmpty = false := by
    cases ledger with
    | nil => exact absurd rfl hne
    | cons a l => rfl
  have hh : csvRow ["timestamp", "session_id", "rating", "feedback", "language", "ticket_id"] =
      "timestamp,session_id,rating,feedback,language,ticket_id\r\n" := by decide
  have hrows : ledger.map rating_row = ledger.map (fun e =>
      csvRow [e.timestamp, e.session_id, toString e.rating,
        (rating_labels e.language e.rating).getD "", e.language, e.ticket_id]) := by
    refine List.map_congr_left (fun e he => ?_)
    unfold rating_row
    rw [hlab e he]
    rfl
  simp only [export_ratings, hhe, Bool.false_eq_true, if_false, hh, hrows]

/-- C9 witness: the export theorem applied to a one-entry ledger holding a
5-star Marathi rating. -/
theorem c9_witness :
    export_ratings [ratingEntryC9] =
      some ("\uFEFF" ++ "timestamp,session_id,rating,feedback,language,ticket_id\r\n" ++
        String.join ([ratingEntryC9].map (fun e =>
          csvRow [e.timestamp, e.session_id, toString e.rating,
            (rating_labels e.language e.rating).getD "", e.language, e.ticket_id]))) :=
  c9_export_ratings_format [ratingEntryC9] (by decide) (by decide)
